import Mathlib

/-!
Verification development for the EclipGuardX telemetry collection and
reconciliation engine.  JavaScript numbers are modelled as `JSVal`
(finite rationals, signed infinities, NaN); Docker/OS textual outputs are
modelled as `List Char`; the persistence layer is modelled as explicit
record lists with the foreign-key behaviour of the SQL schema.
-/

namespace EclipGuardX

/-- A JavaScript number: NaN, a signed infinity, or a finite value
(modelled exactly as a rational; the sources only perform ring
operations and divisions on decimal inputs, so no rounding occurs). -/
inductive JSVal where
  | nan : JSVal
  | inf (neg : Bool) : JSVal
  | num (q : ℚ) : JSVal
deriving DecidableEq, Repr

/-- JS unary minus. -/
def jsNeg : JSVal → JSVal
  | .nan => .nan
  | .inf s => .inf (!s)
  | .num q => .num (-q)

/-- JS addition (IEEE rules: NaN propagates, opposite infinities give NaN). -/
def jsAdd : JSVal → JSVal → JSVal
  | .nan, _ => .nan
  | _, .nan => .nan
  | .inf s, .inf t => if s = t then .inf s else .nan
  | .inf s, .num _ => .inf s
  | .num _, .inf t => .inf t
  | .num a, .num b => .num (a + b)

/-- JS subtraction. -/
def jsSub (a b : JSVal) : JSVal := jsAdd a (jsNeg b)

/-- JS multiplication (0 × ∞ = NaN). -/
def jsMul : JSVal → JSVal → JSVal
  | .nan, _ => .nan
  | _, .nan => .nan
  | .inf s, .inf t => .inf (s != t)
  | .inf s, .num b => if b = 0 then .nan else .inf (s != decide (b < 0))
  | .num a, .inf t => if a = 0 then .nan else .inf (t != decide (a < 0))
  | .num a, .num b => .num (a * b)

/-- JS division (0/0 = NaN, x/0 = ±∞, ∞/∞ = NaN, x/∞ = 0; the −0
distinction is dropped, which none of the embedded code observes). -/
def jsDiv : JSVal → JSVal → JSVal
  | .nan, _ => .nan
  | _, .nan => .nan
  | .inf _, .inf _ => .nan
  | .inf s, .num b => .inf (s != decide (b < 0))
  | .num _, .inf _ => .num 0
  | .num a, .num b =>
      if b = 0 then (if a = 0 then .nan else .inf (decide (a < 0)))
      else .num (a / b)

/-- The `isNaN(x) ? 0 : x` guard used by the collector before persisting. -/
def nanToZero : JSVal → JSVal
  | .nan => .num 0
  | v => v

/-! ### JavaScript string primitives -/

/-- JS whitespace (the characters `\s` matches that occur in this code base). -/
def isJsWs (c : Char) : Bool :=
  c = ' ' || c = '\t' || c = '\n' || c = '\r' ||
  c = Char.ofNat 11 || c = Char.ofNat 12

/-- JS `String.prototype.trim` on a character list. -/
def jsTrim (l : List Char) : List Char :=
  ((l.dropWhile isJsWs).reverse.dropWhile isJsWs).reverse

/-- JS `split(sep)` for a single-character separator: empty segments are
kept and the empty string yields `[""]`. -/
def splitOnCh (sep : Char) : List Char → List (List Char)
  | [] => [[]]
  | c :: rest =>
      let r := splitOnCh sep rest
      if c = sep then [] :: r
      else
        match r with
        | h :: t => (c :: h) :: t
        | [] => [[c]]

/-- Worker for `jsSplitWs`; `inSep` records that the scan is inside a run
of whitespace whose preceding segment has already been emitted. -/
def jsSplitWsAux : List Char → Bool → List Char → List (List Char)
  | [], true, _ => [[]]
  | [], false, acc => [acc.reverse]
  | c :: rest, true, _ =>
      if isJsWs c then jsSplitWsAux rest true []
      else jsSplitWsAux rest false [c]
  | c :: rest, false, acc =>
      if isJsWs c then acc.reverse :: jsSplitWsAux rest true []
      else jsSplitWsAux rest false (c :: acc)

/-- JS `split(/\s+/)`: whitespace runs separate fields; a leading or
trailing run contributes an empty field. -/
def jsSplitWs (l : List Char) : List (List Char) := jsSplitWsAux l false []

/-- JS `replace(t, "")` with a single-character pattern: removes the
first occurrence only. -/
def replaceFirstCh (t : Char) : List Char → List Char
  | [] => []
  | c :: rest => if c = t then rest else c :: replaceFirstCh t rest

/-- Numeric value of a digit character. -/
def digitVal (c : Char) : ℕ := c.toNat - 48

/-- Value of a list of decimal digit characters. -/
def natOfDigits (l : List Char) : ℕ :=
  l.foldl (fun a c => 10 * a + digitVal c) 0

/-- JS `parseFloat`: skip leading whitespace, optional sign, then the
longest valid decimal-literal prefix (`Infinity`, `digits[.digits]`,
`.digits`, with an optional well-formed exponent); anything else is NaN. -/
def jsParseFloat (l : List Char) : JSVal :=
  let l1 := l.dropWhile isJsWs
  let signAndRest : Bool × List Char :=
    match l1 with
    | '-' :: r => (true, r)
    | '+' :: r => (false, r)
    | _ => (false, l1)
  let neg := signAndRest.1
  let l2 := signAndRest.2
  if ['I','n','f','i','n','i','t','y'].isPrefixOf l2 then .inf neg
  else
    let ip := l2.takeWhile Char.isDigit
    let r1 := l2.dropWhile Char.isDigit
    let fracAndRest : Bool × List Char × List Char :=
      match r1 with
      | '.' :: r => (true, r.takeWhile Char.isDigit, r.dropWhile Char.isDigit)
      | _ => (false, [], r1)
    let hasDot := fracAndRest.1
    let fp := fracAndRest.2.1
    let r2 := fracAndRest.2.2
    if ip = [] && (!hasDot || fp = []) then .nan
    else
      let mantissa : ℚ :=
        (natOfDigits ip : ℚ) + (natOfDigits fp : ℚ) / (10 : ℚ) ^ fp.length
      let withExp : ℚ :=
        match r2 with
        | e :: r3 =>
            if e = 'e' || e = 'E' then
              let expSignAndRest : Bool × List Char :=
                match r3 with
                | '-' :: r4 => (true, r4)
                | '+' :: r4 => (false, r4)
                | _ => (false, r3)
              let ed := expSignAndRest.2.takeWhile Char.isDigit
              if ed = [] then mantissa
              else if expSignAndRest.1 then
                mantissa / (10 : ℚ) ^ natOfDigits ed
              else mantissa * (10 : ℚ) ^ natOfDigits ed
            else mantissa
        | [] => mantissa
      .num (if neg then -withExp else withExp)

/-! ### The Unit Parser (`parseBytes`, metrics-collector lines 424–448) -/

/-- A character the `[KMGT]` class of the unit regexes matches
(case-insensitive). -/
def isUnitCh (c : Char) : Bool :=
  c = 'K' || c = 'M' || c = 'G' || c = 'T' ||
  c = 'k' || c = 'm' || c = 'g' || c = 't'

/-- First match of `/(\d+(?:\.\d+)?)([KMGT]?)i?B?/i`: returns the numeric
capture and the unit capture (`none` for the empty capture).  The match
begins at the first digit; every later element of the pattern is
optional, so the attempt at that position always succeeds. -/
def regexNumUnit : List Char → Option (List Char × Option Char)
  | [] => none
  | c :: rest =>
      if c.isDigit then
        let ds := c :: rest.takeWhile Char.isDigit
        let r1 := rest.dropWhile Char.isDigit
        let numAndRest : List Char × List Char :=
          match r1 with
          | '.' :: d :: r =>
              if d.isDigit then
                (ds ++ '.' :: d :: r.takeWhile Char.isDigit,
                 r.dropWhile Char.isDigit)
              else (ds, r1)
          | _ => (ds, r1)
        let unit : Option Char :=
          match numAndRest.2 with
          | u :: _ => if isUnitCh u then some u else none
          | [] => none
        some (numAndRest.1, unit)
      else regexNumUnit rest

/-- The function `parseBytes` (metrics collector): extract number and unit suffix via
the regex, multiply by 1024 per suffix step; empty or unmatched input is
0.  The `'KB'`/`'MB'`/`'GB'`/`'TB'` switch cases of the source are
unreachable because the unit capture is a single character. -/
def parseBytes (l : List Char) : JSVal :=
  if l = [] then .num 0
  else
    match regexNumUnit l with
    | none => .num 0
    | some (numStr, unit) =>
        let value := jsParseFloat numStr
        match unit.map Char.toUpper with
        | some 'K' => jsMul value (.num 1024)
        | some 'M' => jsMul value (.num (1024 * 1024))
        | some 'G' => jsMul value (.num (1024 * 1024 * 1024))
        | some 'T' => jsMul value (.num (1024 * 1024 * 1024 * 1024))
        | _ => value

/-- String-level wrapper for `parseBytes`. -/
def parseBytesStr (s : String) : JSVal := parseBytes s.data

/-! ### The Runtime Stats Parser (`collectSingleContainerMetrics`,
metrics-collector lines 304–399) -/

/-- A character of the `[\d.]` class. -/
def isDigitDot (c : Char) : Bool := c.isDigit || c = '.'

/-- Consume one optional character satisfying `p` (an `x?` regex atom). -/
def takeOptCh (p : Char → Bool) : List Char → Option Char × List Char
  | [] => (none, [])
  | c :: rest => if p c then (some c, rest) else (none, c :: rest)

/-- Attempt `/([\d.]+[KMGT]?)i?B?\s*\/\s*([\d.]+[KMGT]?)i?B?/i` at the
head of the input.  Every character class of this pattern is disjoint
from the ones that follow it, so greedy maximal munch needs no
backtracking. -/
def ioPairAt (l : List Char) : Option (List Char × List Char) :=
  let n1 := l.takeWhile isDigitDot
  if n1 = [] then none
  else
    let r1 := l.dropWhile isDigitDot
    let u1r := takeOptCh isUnitCh r1
    let r2 := (takeOptCh (fun c => c = 'i' || c = 'I') u1r.2).2
    let r3 := (takeOptCh (fun c => c = 'B' || c = 'b') r2).2
    match r3.dropWhile isJsWs with
    | '/' :: r5 =>
        let r6 := r5.dropWhile isJsWs
        let n2 := r6.takeWhile isDigitDot
        if n2 = [] then none
        else
          let u2r := takeOptCh isUnitCh (r6.dropWhile isDigitDot)
          some (n1 ++ u1r.1.toList, n2 ++ u2r.1.toList)
    | _ => none

/-- First match of the I/O pair regex: the engine retries at each
successive start position. -/
def regexIoPair : List Char → Option (List Char × List Char)
  | [] => none
  | c :: rest =>
      match ioPairAt (c :: rest) with
      | some x => some x
      | none => regexIoPair rest

/-- The memory-limit unit switch of `collectSingleContainerMetrics`
(lines 350–360): it converts the parsed value to mebibytes (`G` ×1024,
`K` ÷1024, `T` ×1024², `M` and no suffix unchanged).  The `'GB'`-style
cases of the source switch are unreachable single-character captures. -/
def applyMemLimitUnit (value : JSVal) : Option Char → JSVal
  | u =>
      match u.map Char.toUpper with
      | some 'G' => jsMul value (.num 1024)
      | some 'K' => jsDiv value (.num 1024)
      | some 'T' => jsMul value (.num (1024 * 1024))
      | _ => value

/-- One persisted container telemetry sample (the `metricData` object,
without the owning `containerId`). -/
structure MetricData where
  cpuUsage : JSVal
  memUsage : JSVal
  memLimit : Option JSVal
  netIn : JSVal
  netOut : JSVal
  diskRead : Option JSVal
  diskWrite : Option JSVal
deriving DecidableEq, Repr

/-- JS out-of-range array indexing interpolated into a template literal
produces the string `"undefined"`. -/
def undefinedChars : List Char := ['u','n','d','e','f','i','n','e','d']

/-- Indexing `parts[i]` as used inside a template literal. -/
def jsIndex (parts : List (List Char)) (i : ℕ) : List Char :=
  (parts.get? i).getD undefinedChars

/-- The parsing phase of `collectSingleContainerMetrics`: from the raw
`docker stats` stdout to the sample that would be persisted (`none`
when the code returns without creating a row). -/
def collectSingleContainerMetrics (stdout : List Char) : Option MetricData :=
  let trimmed := jsTrim stdout
  if trimmed = [] then none
  else
    let line := (splitOnCh '\n' trimmed).headD []
    if line = [] then none
    else
      let parts := jsSplitWs line
      if parts.length < 9 then none
      else
        let cpuPerc := jsIndex parts 1
        let memPerc := jsIndex parts 5
        let netIoStr := jsIndex parts 6 ++ (' ' :: '/' :: ' ' :: jsIndex parts 8)
        let blockIoStr := jsIndex parts 9 ++ (' ' :: '/' :: ' ' :: jsIndex parts 11)
        let cpuUsage := jsParseFloat (replaceFirstCh '%' cpuPerc)
        let memUsagePercent := jsParseFloat (replaceFirstCh '%' memPerc)
        let memUsageString := jsIndex parts 2 ++ (' ' :: '/' :: ' ' :: jsIndex parts 4)
        let memParts := splitOnCh '/' memUsageString
        let memLimitValue := (memParts.get? 1).map jsTrim
        let memLimitMB : Option JSVal :=
          match memLimitValue with
          | none => none
          | some v =>
              if v = [] then none
              else
                match regexNumUnit v with
                | none => none
                | some (numStr, unit) =>
                    some (applyMemLimitUnit (jsParseFloat numStr) unit)
        let netPair : JSVal × JSVal :=
          match regexIoPair netIoStr with
          | some (g1, g2) => (parseBytes g1, parseBytes g2)
          | none => (.num 0, .num 0)
        let blockPair : Option JSVal × Option JSVal :=
          match regexIoPair blockIoStr with
          | some (g1, g2) => (some (parseBytes g1), some (parseBytes g2))
          | none => (none, none)
        some
          { cpuUsage := nanToZero cpuUsage
            memUsage := nanToZero memUsagePercent
            memLimit := memLimitMB
            netIn := netPair.1
            netOut := netPair.2
            diskRead := blockPair.1
            diskWrite := blockPair.2 }

/-- String-level wrapper for the stats parser. -/
def collectSingleContainerMetricsStr (s : String) : Option MetricData :=
  collectSingleContainerMetrics s.data

/-! ### The Host Sampler (`collectSystemMetrics` lines 135–212 and
`getCPUUsage` lines 241–289) -/

/-- One persisted host sample (the `systemMetricsData` object). -/
structure SystemMetricsData where
  cpuUsage : JSVal
  cpuLoad1 : JSVal
  cpuLoad5 : JSVal
  cpuLoad15 : JSVal
  ramUsed : JSVal
  ramFree : JSVal
  ramUsagePercent : JSVal
  ramTotal : JSVal
  diskUsed : JSVal
  diskFree : JSVal
  diskUsagePercent : JSVal
  diskTotal : JSVal
  networkIn : JSVal
  networkOut : JSVal
deriving DecidableEq, Repr

/-- The pure computation of `collectSystemMetrics`: OS counter reads and
the `df` query are parameters; the derived percentages, the MB
conversions and the `isNaN` guards follow the source. -/
def collectSystemMetrics (cpuUsage load1 load5 load15 : JSVal)
    (totalMemory freeMemory : JSVal) (dfOutput : List Char)
    (networkIn networkOut : JSVal) : SystemMetricsData :=
  let usedMemory := jsSub totalMemory freeMemory
  let ramUsagePercent := jsMul (jsDiv usedMemory totalMemory) (.num 100)
  let mb : JSVal := .num (1024 * 1024)
  let diskInfo := jsSplitWs (jsTrim dfOutput)
  let diskUsed := jsParseFloat (replaceFirstCh 'M' (jsIndex diskInfo 2))
  let diskFree := jsParseFloat (replaceFirstCh 'M' (jsIndex diskInfo 3))
  let diskTotal := jsAdd diskUsed diskFree
  let diskUsagePercent := jsMul (jsDiv diskUsed diskTotal) (.num 100)
  { cpuUsage := nanToZero cpuUsage
    cpuLoad1 := load1
    cpuLoad5 := load5
    cpuLoad15 := load15
    ramUsed := jsDiv usedMemory mb
    ramFree := jsDiv freeMemory mb
    ramUsagePercent := nanToZero ramUsagePercent
    ramTotal := jsDiv totalMemory mb
    diskUsed := diskUsed
    diskFree := diskFree
    diskUsagePercent := nanToZero diskUsagePercent
    diskTotal := diskTotal
    networkIn := networkIn
    networkOut := networkOut }

/-- One `/proc/stat` snapshot of the seven CPU-time buckets. -/
structure CpuTimes where
  user : ℤ
  nice : ℤ
  system : ℤ
  idle : ℤ
  iowait : ℤ
  irq : ℤ
  softirq : ℤ
deriving DecidableEq, Repr

/-- Total CPU time as summed by `getCPUUsage` (lines 270–271). -/
def cpuTotal (t : CpuTimes) : ℤ :=
  t.user + t.nice + t.system + t.idle + t.iowait + t.irq + t.softirq

/-- Idle CPU time as summed by `getCPUUsage` (lines 274–275). -/
def cpuIdleTime (t : CpuTimes) : ℤ := t.idle + t.iowait

/-- The two-snapshot delta computation of `getCPUUsage` (lines 278–281),
on integer-valued snapshots. -/
def getCPUUsage (first second : CpuTimes) : ℚ :=
  let totalDiff := cpuTotal second - cpuTotal first
  let idleDiff := cpuIdleTime second - cpuIdleTime first
  if totalDiff > 0 then ((totalDiff - idleDiff : ℤ) : ℚ) / (totalDiff : ℚ) * 100
  else 0

/-- Modelled from the spec: `usage% = 1 − (Δidle + Δiowait)/Δtotal`,
clamped to `[0, 100]`, with result `0` when `Δtotal = 0`. -/
def specCpuUsage (first second : CpuTimes) : ℚ :=
  let dTotal := cpuTotal second - cpuTotal first
  let dIdle := (second.idle + second.iowait) - (first.idle + first.iowait)
  if dTotal = 0 then 0
  else min 100 (max 0 ((1 - (dIdle : ℚ) / (dTotal : ℚ)) * 100))

/-! ### Persistence model: the SQL schema of the initial migration.
Foreign keys: `ContainerMetric`, `Scan` and `ContainerLog` reference
`Container(id)` with ON DELETE CASCADE; `Alert` references it with
ON DELETE SET NULL. -/

/-- One container as observed from the runtime listing. -/
structure ObservedContainer where
  id : String
  name : String
  image : String
  status : String
  ports : String
deriving DecidableEq, Repr

/-- A `Container` row (`id` is the internal primary key, `containerId`
the unique runtime id). -/
structure ContainerRow where
  id : ℕ
  containerId : String
  name : String
  image : String
  status : String
  ports : Option String
  createdAt : ℤ
  updatedAt : ℤ
deriving DecidableEq, Repr

/-- A `ContainerMetric` row (payload fields other than the owning
reference and timestamp are irrelevant to the claims). -/
structure MetricRow where
  containerId : ℕ
  timestamp : ℤ
deriving DecidableEq, Repr

/-- An `Alert` row. -/
structure AlertRow where
  severity : String
  message : String
  source : String
  containerId : Option ℕ
  timestamp : ℤ
  resolved : Bool
deriving DecidableEq, Repr

/-- A `Scan` row. -/
structure ScanRow where
  containerId : ℕ
  scanType : String
  status : String
  timestamp : ℤ
deriving DecidableEq, Repr

/-- A `ContainerLog` row. -/
structure LogRow where
  containerId : ℕ
deriving DecidableEq, Repr

/-- The relational store. `nextId` generates fresh internal primary
keys. -/
structure Database where
  containers : List ContainerRow
  metrics : List MetricRow
  alerts : List AlertRow
  scans : List ScanRow
  logs : List LogRow
  nextId : ℕ
deriving DecidableEq, Repr

/-- JS `x || null`: the empty string is falsy. -/
def jsOrNull (s : String) : Option String := if s = "" then none else some s

/-- The `prisma.container.upsert` call keyed by the unique `containerId`
(metrics-collector lines 60–78). -/
def upsertContainer (now : ℤ) (db : Database) (c : ObservedContainer) :
    Database :=
  if db.containers.any (fun r => decide (r.containerId = c.id)) then
    { db with
        containers := db.containers.map (fun r =>
          if r.containerId = c.id then
            { r with name := c.name, image := c.image, status := c.status,
                     ports := jsOrNull c.ports, updatedAt := now }
          else r) }
  else
    { db with
        containers := db.containers ++
          [{ id := db.nextId, containerId := c.id, name := c.name,
             image := c.image, status := c.status, ports := jsOrNull c.ports,
             createdAt := now, updatedAt := now }],
        nextId := db.nextId + 1 }

/-- The internal ids of the containers a `deleteMany` with
`containerId notIn keep` removes. -/
def removedIds (keep : List String) (db : Database) : List ℕ :=
  (db.containers.filter (fun r => !(decide (r.containerId ∈ keep)))).map (·.id)

/-- The `prisma.container.deleteMany` call with `containerId notIn keep` and
the schema's referential actions: metric, scan and log rows of a deleted
container are cascade-deleted, alert references are set to null. -/
def deleteContainersNotIn (keep : List String) (db : Database) : Database :=
  let removed := removedIds keep db
  { db with
      containers := db.containers.filter (fun r => decide (r.containerId ∈ keep))
      metrics := db.metrics.filter (fun m => !(decide (m.containerId ∈ removed)))
      scans := db.scans.filter (fun s => !(decide (s.containerId ∈ removed)))
      logs := db.logs.filter (fun l => !(decide (l.containerId ∈ removed)))
      alerts := db.alerts.map (fun a =>
        match a.containerId with
        | some cid =>
            if cid ∈ removed then { a with containerId := none } else a
        | none => a) }

/-- The reconciler `syncContainersToDatabase` (metrics-collector lines 26–95): upsert
every observed container, then delete the persisted containers no longer
observed — unless the observed set is empty. -/
def syncContainersToDatabase (now : ℤ) (observed : List ObservedContainer)
    (db : Database) : Database :=
  let currentDockerIds := observed.map (·.id)
  let db1 := observed.foldl (upsertContainer now) db
  if currentDockerIds.length > 0 then deleteContainersNotIn currentDockerIds db1
  else db1

/-! ### The Retention Sweeper (`POST /api/cleanup`, lines 20–124) -/

/-- The result shape returned by the cleanup endpoint. -/
structure CleanupResults where
  metricsDeleted : ℕ
  alertsDeleted : ℕ
  scansDeleted : ℕ
  errors : List String
deriving DecidableEq, Repr

/-- Old-metric predicate: `timestamp < cutoffDate`. -/
def metricOld (cutoffDate : ℤ) (m : MetricRow) : Bool :=
  decide (m.timestamp < cutoffDate)

/-- Old-resolved-alert predicate: `timestamp < cutoffDate && resolved`. -/
def alertOld (cutoffDate : ℤ) (a : AlertRow) : Bool :=
  decide (a.timestamp < cutoffDate) && a.resolved

/-- Old-completed-scan predicate: `timestamp < cutoffDate && status =
'completed'`. -/
def scanOld (cutoffDate : ℤ) (s : ScanRow) : Bool :=
  decide (s.timestamp < cutoffDate) && decide (s.status = "completed")

/-- The cleanup endpoint: deletes (or, in dry-run mode, only counts) old
metrics, old resolved alerts and old completed scans.  The per-class
`try`/`catch` produces an empty `errors` list when the store succeeds,
which is the only behaviour visible in this model. -/
def cleanupPost (cutoffDate : ℤ) (dryRun : Bool) (db : Database) :
    Database × CleanupResults :=
  let counts : CleanupResults :=
    { metricsDeleted := (db.metrics.filter (metricOld cutoffDate)).length
      alertsDeleted := (db.alerts.filter (alertOld cutoffDate)).length
      scansDeleted := (db.scans.filter (scanOld cutoffDate)).length
      errors := [] }
  if !dryRun then
    ({ db with
        metrics := db.metrics.filter (fun m => !(metricOld cutoffDate m))
        alerts := db.alerts.filter (fun a => !(alertOld cutoffDate a))
        scans := db.scans.filter (fun s => !(scanOld cutoffDate s)) },
     counts)
  else (db, counts)

/-! ### Security scores -/

/-- The security report's score (`POST /api/reports`, lines 79–82):
`Math.max(0, Math.min(100, 100 − 10·unresolvedCritical −
5·unresolvedHigh))` over the fetched alerts. -/
def reportSecurityScore (alerts : List AlertRow) : ℤ :=
  max 0 (min 100
    (100 -
      ((alerts.filter (fun a => decide (a.severity = "CRITICAL") && !a.resolved)).length : ℤ) * 10 -
      ((alerts.filter (fun a => decide (a.severity = "HIGH") && !a.resolved)).length : ℤ) * 5))

/-- The dashboard's score (`GET /api/dashboard`, lines 99–101):
`Math.max(0, Math.min(100, 100 − 10·criticalAlerts − 5·failedScans))`
where `criticalAlerts` counts unresolved CRITICAL alerts and
`failedScans` counts scans with status `failed`.  The surrounding
`Math.round` is the identity on this integer value. -/
def dashboardSecurityScore (alerts : List AlertRow) (scans : List ScanRow) : ℤ :=
  let criticalAlerts : ℤ :=
    (alerts.filter (fun a => decide (a.severity = "CRITICAL") && !a.resolved)).length
  let failedScans : ℤ :=
    (scans.filter (fun s => decide (s.status = "failed"))).length
  max 0 (min 100 (100 - criticalAlerts * 10 - failedScans * 5))

/-- The function `clamp(x, 0, 100)` as written in the spec. -/
def clampScore (x : ℤ) : ℤ := if x < 0 then 0 else if x > 100 then 100 else x

/-- Modelled from the spec: `clamp(100 − 10×unresolvedCriticalCount −
5×unresolvedHighCount, 0, 100)`. -/
def specSecurityScore (critical high : ℕ) : ℤ :=
  clampScore (100 - 10 * (critical : ℤ) - 5 * (high : ℤ))

/-- Number of unresolved alerts of a given severity (spec-side count). -/
def unresolvedCount (sev : String) (alerts : List AlertRow) : ℕ :=
  alerts.countP (fun a => decide (a.severity = sev ∧ a.resolved = false))

/-- Number of scans with a given status (spec-side count). -/
def scanStatusCount (st : String) (scans : List ScanRow) : ℕ :=
  scans.countP (fun s => decide (s.status = st))

/-! ### Shared concrete fixtures -/

/-- An empty store. -/
def emptyDb : Database := ⟨[], [], [], [], [], 0⟩

/-- Observed container with runtime id `"a"`. -/
def obsA : ObservedContainer := ⟨"a", "na", "ia", "running", ""⟩

/-- Observed container with runtime id `"b"`. -/
def obsB : ObservedContainer := ⟨"b", "nb", "ib", "running", ""⟩

/-- The runtime ids present in the persisted inventory. -/
def containerIds (db : Database) : List String :=
  db.containers.map (·.containerId)

/-- Alerts used by the C6 witness: one old unresolved, one old resolved. -/
def alertU : AlertRow := ⟨"HIGH", "mu", "scanner", none, 0, false⟩

/-- Old resolved alert for the C6 witness. -/
def alertR : AlertRow := ⟨"HIGH", "mr", "scanner", none, 0, true⟩

/-- Store used by the C6 witness. -/
def dbC6 : Database := ⟨[], [], [alertU, alertR], [], [], 0⟩

/-- Referential integrity as stated by the spec's data-model invariant:
every metric, scan and log row references an existing container, and
every alert either has a null reference or references an existing
container. -/
def refIntegrity (db : Database) : Prop :=
  (∀ m ∈ db.metrics, ∃ r ∈ db.containers, r.id = m.containerId) ∧
  (∀ s ∈ db.scans, ∃ r ∈ db.containers, r.id = s.containerId) ∧
  (∀ l ∈ db.logs, ∃ r ∈ db.containers, r.id = l.containerId) ∧
  (∀ a ∈ db.alerts, a.containerId = none ∨
    ∃ r ∈ db.containers, some r.id = a.containerId)

/-- Store used by the C1 counterexample: one container (internal id 0,
runtime id `"a"`) with one metric, one alert and one scan referencing
it. -/
def dbC1 : Database :=
  { containers := [⟨0, "a", "na", "ia", "running", none, 0, 0⟩]
    metrics := [⟨0, 0⟩]
    alerts := [⟨"CRITICAL", "m", "scanner", some 0, 0, false⟩]
    scans := [⟨0, "vulnerability", "completed", 0⟩]
    logs := []
    nextId := 1 }

/-- The spec's example stats line. -/
def statsLineC4 : String :=
  "abc123 0.50% 2.1MiB / 512MiB 0.41% 1.2kB / 800B 3MB / 1MB"

/-- Approximate equality: `a ≈ b` up to 5% of `b` (reading of the spec's `≈`). -/
def approxEq (a b : ℚ) : Prop := |a - b| ≤ b / 20

/-- A recognized unit suffix of the Unit Parser. -/
inductive SuffixKind where
  | noUnit : SuffixKind
  | kUnit : SuffixKind
  | mUnit : SuffixKind
  | gUnit : SuffixKind
  | tUnit : SuffixKind
deriving DecidableEq, Repr

/-- Render a suffix (upper- or lower-case). -/
def suffixChars : SuffixKind → Bool → List Char
  | .noUnit, _ => []
  | .kUnit, false => ['K']
  | .kUnit, true => ['k']
  | .mUnit, false => ['M']
  | .mUnit, true => ['m']
  | .gUnit, false => ['G']
  | .gUnit, true => ['g']
  | .tUnit, false => ['T']
  | .tUnit, true => ['t']

/-- Number of ×1024 steps a suffix denotes. -/
def suffixStep : SuffixKind → ℕ
  | .noUnit => 0
  | .kUnit => 1
  | .mUnit => 2
  | .gUnit => 3
  | .tUnit => 4

/-- Render `7` followed by a suffix, an optional `i` marker and an
optional `B`. -/
def renderSeven (u : SuffixKind) (lower iMark bMark : Bool) : List Char :=
  ['7'] ++ suffixChars u lower ++ (if iMark then ['i'] else []) ++
    (if bMark then ['B'] else [])

/-- Snapshot pair for the C8 counterexample: idle time decreases. -/
def cpuFirstCx : CpuTimes := ⟨0, 0, 0, 10, 0, 0, 0⟩

/-- Second snapshot for the C8 counterexample. -/
def cpuSecondCx : CpuTimes := ⟨20, 0, 0, 0, 0, 0, 0⟩

/-- All-zero snapshot (Δtotal = 0). -/
def cpuZero : CpuTimes := ⟨0, 0, 0, 0, 0, 0, 0⟩

/-- All-ones snapshot. -/
def cpuOnes : CpuTimes := ⟨1, 1, 1, 1, 1, 1, 1⟩

/-- A degenerate 9-token stats line whose CPU and memory tokens are not
numeric: both percentages parse to NaN and are zeroed by the guard. -/
def statsLineC10 : String := "a b c d e f g h i"

/-- The sample the collector produces for `statsLineC10`. -/
def metricC10 : MetricData :=
  { cpuUsage := .num 0, memUsage := .num 0, memLimit := none,
    netIn := .num 0, netOut := .num 0, diskRead := none, diskWrite := none }

/-- A stats line with fewer than 9 whitespace-separated tokens. -/
def shortLine : String := "abc 1% 2MiB / 4MiB"

/-! ### Basic lemmas -/

/-- The guard `nanToZero` never returns NaN. -/
theorem nanToZero_ne_nan (v : JSVal) : nanToZero v ≠ JSVal.nan := by
  cases v <;> simp [nanToZero]

/-! ### Helper lemmas about the reconciler -/

theorem upsert_alerts_eq (now : ℤ) (db : Database) (c : ObservedContainer) :
    (upsertContainer now db c).alerts = db.alerts := by
  unfold upsertContainer; split <;> rfl

theorem upsert_metrics_eq (now : ℤ) (db : Database) (c : ObservedContainer) :
    (upsertContainer now db c).metrics = db.metrics := by
  unfold upsertContainer; split <;> rfl

theorem upsert_scans_eq (now : ℤ) (db : Database) (c : ObservedContainer) :
    (upsertContainer now db c).scans = db.scans := by
  unfold upsertContainer; split <;> rfl

theorem upsert_logs_eq (now : ℤ) (db : Database) (c : ObservedContainer) :
    (upsertContainer now db c).logs = db.logs := by
  unfold upsertContainer; split <;> rfl

theorem fold_upsert_alerts_eq (now : ℤ) (obs : List ObservedContainer)
    (db : Database) :
    (obs.foldl (upsertContainer now) db).alerts = db.alerts := by
  induction obs generalizing db with
  | nil => rfl
  | cons c obs ih => rw [List.foldl_cons, ih, upsert_alerts_eq]

theorem fold_upsert_metrics_eq (now : ℤ) (obs : List ObservedContainer)
    (db : Database) :
    (obs.foldl (upsertContainer now) db).metrics = db.metrics := by
  induction obs generalizing db with
  | nil => rfl
  | cons c obs ih => rw [List.foldl_cons, ih, upsert_metrics_eq]

theorem fold_upsert_scans_eq (now : ℤ) (obs : List ObservedContainer)
    (db : Database) :
    (obs.foldl (upsertContainer now) db).scans = db.scans := by
  induction obs generalizing db with
  | nil => rfl
  | cons c obs ih => rw [List.foldl_cons, ih, upsert_scans_eq]

theorem fold_upsert_logs_eq (now : ℤ) (obs : List ObservedContainer)
    (db : Database) :
    (obs.foldl (upsertContainer now) db).logs = db.logs := by
  induction obs generalizing db with
  | nil => rfl
  | cons c obs ih => rw [List.foldl_cons, ih, upsert_logs_eq]

theorem mem_containerIds_upsert (now : ℤ) (db : Database)
    (c : ObservedContainer) (s : String) :
    s ∈ containerIds (upsertContainer now db c) ↔
      s = c.id ∨ s ∈ containerIds db := by
  unfold containerIds upsertContainer
  by_cases h : db.containers.any (fun r => decide (r.containerId = c.id)) = true
  · rw [if_pos h]
    have hmap :
        (db.containers.map (fun r =>
          if r.containerId = c.id then
            { r with name := c.name, image := c.image, status := c.status,
                     ports := jsOrNull c.ports, updatedAt := now }
          else r)).map (·.containerId) = db.containers.map (·.containerId) := by
      rw [List.map_map]
      apply List.map_congr_left
      intro r _
      by_cases hr : r.containerId = c.id <;> simp [hr]
    rw [hmap]
    have hc : c.id ∈ db.containers.map (·.containerId) := by
      obtain ⟨r, hr, hrc⟩ := List.any_eq_true.mp h
      simp only [decide_eq_true_eq] at hrc
      exact hrc ▸ List.mem_map_of_mem _ hr
    constructor
    · exact fun hs => Or.inr hs
    · rintro (rfl | hs)
      · exact hc
      · exact hs
  · rw [if_neg h]
    simp [or_comm]

theorem mem_containerIds_fold (now : ℤ) (obs : List ObservedContainer)
    (db : Database) (s : String) :
    s ∈ containerIds (obs.foldl (upsertContainer now) db) ↔
      s ∈ obs.map (·.id) ∨ s ∈ containerIds db := by
  induction obs generalizing db with
  | nil => simp
  | cons c obs ih =>
      rw [List.foldl_cons, ih, mem_containerIds_upsert]
      simp only [List.map_cons, List.mem_cons]
      tauto

theorem exists_id_upsert (now : ℤ) (db : Database) (c : ObservedContainer)
    (x : ℕ) (h : ∃ r ∈ db.containers, r.id = x) :
    ∃ r ∈ (upsertContainer now db c).containers, r.id = x := by
  obtain ⟨r, hr, hx⟩ := h
  unfold upsertContainer
  by_cases hc : db.containers.any (fun r => decide (r.containerId = c.id)) = true
  · rw [if_pos hc]
    refine ⟨if r.containerId = c.id then
      { r with name := c.name, image := c.image, status := c.status,
               ports := jsOrNull c.ports, updatedAt := now } else r,
      List.mem_map_of_mem _ hr, ?_⟩
    by_cases hr2 : r.containerId = c.id <;> simp [hr2, hx]
  · rw [if_neg hc]
    exact ⟨r, List.mem_append_left _ hr, hx⟩

theorem exists_id_fold (now : ℤ) (obs : List ObservedContainer)
    (db : Database) (x : ℕ) (h : ∃ r ∈ db.containers, r.id = x) :
    ∃ r ∈ (obs.foldl (upsertContainer now) db).containers, r.id = x := by
  induction obs generalizing db with
  | nil => exact h
  | cons c obs ih => exact List.foldl_cons _ _ ▸ ih _ (exists_id_upsert now db c x h)

theorem mem_containerIds_delete (keep : List String) (db : Database)
    (s : String) :
    s ∈ containerIds (deleteContainersNotIn keep db) ↔
      s ∈ containerIds db ∧ s ∈ keep := by
  unfold deleteContainersNotIn containerIds
  constructor
  · intro hmem
    obtain ⟨r, hr, rfl⟩ := List.mem_map.mp hmem
    have h2 := List.mem_filter.mp hr
    exact ⟨List.mem_map.mpr ⟨r, h2.1, rfl⟩, by simpa using h2.2⟩
  · rintro ⟨h1, h2⟩
    obtain ⟨r, hr, rfl⟩ := List.mem_map.mp h1
    exact List.mem_map.mpr ⟨r, List.mem_filter.mpr ⟨hr, by simpa using h2⟩, rfl⟩

/-- C3 helper: after a sync against a non-empty observed list, the
persisted runtime ids are exactly the observed ids. -/
theorem sync_ids_eq_observed (now : ℤ) (observed : List ObservedContainer)
    (db : Database) (hne : observed ≠ []) (s : String) :
    s ∈ containerIds (syncContainersToDatabase now observed db) ↔
      s ∈ observed.map (·.id) := by
  have hlen : (observed.map (·.id)).length > 0 := by
    simpa using List.length_pos.mpr hne
  show s ∈ containerIds
      (if (observed.map (·.id)).length > 0 then
        deleteContainersNotIn (observed.map (·.id))
          (observed.foldl (upsertContainer now) db)
      else observed.foldl (upsertContainer now) db) ↔ _
  rw [if_pos hlen, mem_containerIds_delete, mem_containerIds_fold]
  tauto

/-! ### Claim C5 -/

/-- C5: when the Inventory Reconciler is given an empty observed
container set, it performs zero deletes — the store is left completely
unchanged (the delete phase is skipped and there is nothing to upsert). -/
theorem C5_sync_empty_observed_is_noop (now : ℤ) (db : Database) :
    syncContainersToDatabase now [] db = db := rfl

/-! ### Claim C3 -/

/-- C3 counterexample: reconciling the sequence of snapshots
`[{a}], []` leaves runtime id `"a"` persisted after the empty snapshot,
so the persisted id set does not equal the final (empty) snapshot. -/
theorem C3_counterexample :
    ¬ ((syncContainersToDatabase 0 []
        (syncContainersToDatabase 0 [obsA] emptyDb)).containers.map
          (fun r => r.containerId) = []) := by decide

/-- C3 (amended): for every *non-empty* snapshot, after the Inventory
Reconciler runs, the persisted runtime-id set equals exactly the
snapshot's id set; an empty snapshot leaves the inventory unchanged
instead (per C5). -/
theorem C3_sync_converges_on_nonempty (now : ℤ)
    (observed : List ObservedContainer) (db : Database)
    (hne : observed ≠ []) (s : String) :
    s ∈ (syncContainersToDatabase now observed db).containers.map
        (fun r => r.containerId) ↔
      s ∈ observed.map (fun c => c.id) :=
  sync_ids_eq_observed now observed db hne s

/-- C3 witness: a concrete application of the convergence theorem. -/
theorem C3_witness :
    "a" ∈ (syncContainersToDatabase 0 [obsA] emptyDb).containers.map
      (fun r => r.containerId) :=
  (C3_sync_converges_on_nonempty 0 [obsA] emptyDb (by decide) "a").mpr
    (by decide)

/-! ### Claim C2 -/

/-- The expression `Math.max(0, Math.min(100, x))` agrees with the spec's
`clamp(x, 0, 100)`. -/
theorem max_min_eq_clampScore (x : ℤ) : max 0 (min 100 x) = clampScore x := by
  unfold clampScore
  split_ifs <;> omega

theorem filter_unresolved_length (sev : String) (alerts : List AlertRow) :
    (alerts.filter (fun a => decide (a.severity = sev) && !a.resolved)).length =
      unresolvedCount sev alerts := by
  unfold unresolvedCount
  rw [List.countP_eq_length_filter]
  have hpq : ∀ a ∈ alerts,
      (decide (a.severity = sev) && !a.resolved) =
        decide (a.severity = sev ∧ a.resolved = false) := by
    intro a _
    by_cases h : a.severity = sev <;> cases hr : a.resolved <;> simp [h, hr]
  rw [List.filter_congr hpq]

theorem filter_status_length (st : String) (scans : List ScanRow) :
    (scans.filter (fun s => decide (s.status = st))).length =
      scanStatusCount st scans := by
  unfold scanStatusCount
  rw [List.countP_eq_length_filter]

/-- C2 counterexample: with no alerts and one failed scan, the dashboard
computes 95 while the claimed formula (no unresolved CRITICAL, no
unresolved HIGH) gives 100. -/
theorem C2_counterexample :
    dashboardSecurityScore [] [⟨0, "vulnerability", "failed", 0⟩] = 95 ∧
    specSecurityScore (unresolvedCount "CRITICAL" [])
      (unresolvedCount "HIGH" []) = 100 ∧ (95 : ℤ) ≠ 100 := by decide

/-- C2 (amended): the security report's score equals
`clamp(100 − 10×unresolvedCritical − 5×unresolvedHigh, 0, 100)` as
claimed, but the dashboard's score instead equals
`clamp(100 − 10×unresolvedCritical − 5×failedScanCount, 0, 100)`. -/
theorem C2_security_scores (alerts : List AlertRow) (scans : List ScanRow) :
    reportSecurityScore alerts =
      specSecurityScore (unresolvedCount "CRITICAL" alerts)
        (unresolvedCount "HIGH" alerts) ∧
    dashboardSecurityScore alerts scans =
      clampScore (100 - 10 * (unresolvedCount "CRITICAL" alerts : ℤ) -
        5 * (scanStatusCount "failed" scans : ℤ)) := by
  constructor
  · unfold reportSecurityScore specSecurityScore
    rw [filter_unresolved_length, filter_unresolved_length,
      ← max_min_eq_clampScore]
    have h100 :
        (100 - (unresolvedCount "CRITICAL" alerts : ℤ) * 10 -
          (unresolvedCount "HIGH" alerts : ℤ) * 5) =
        (100 - 10 * (unresolvedCount "CRITICAL" alerts : ℤ) -
          5 * (unresolvedCount "HIGH" alerts : ℤ)) := by ring
    rw [h100]
  · unfold dashboardSecurityScore
    dsimp only
    rw [filter_unresolved_length, filter_status_length, ← max_min_eq_clampScore]
    have h100 :
        (100 - (unresolvedCount "CRITICAL" alerts : ℤ) * 10 -
          (scanStatusCount "failed" scans : ℤ) * 5) =
        (100 - 10 * (unresolvedCount "CRITICAL" alerts : ℤ) -
          5 * (scanStatusCount "failed" scans : ℤ)) := by ring
    rw [h100]

/-! ### Claim C6 -/

/-- C6: for every retention cutoff, an unresolved alert is never deleted
by the sweep, a resolved alert older than the cutoff is deleted, and a
dry-run sweep changes nothing while returning exactly the counts the
real sweep would delete. -/
theorem C6_retention (cutoffDate : ℤ) (db : Database) (a : AlertRow) :
    (a ∈ db.alerts → a.resolved = false →
      a ∈ (cleanupPost cutoffDate false db).1.alerts) ∧
    (a ∈ db.alerts → a.resolved = true → a.timestamp < cutoffDate →
      a ∉ (cleanupPost cutoffDate false db).1.alerts) ∧
    (cleanupPost cutoffDate true db).1 = db ∧
    (cleanupPost cutoffDate true db).2 = (cleanupPost cutoffDate false db).2 := by
  refine ⟨?_, ?_, rfl, rfl⟩
  · intro ha hr
    unfold cleanupPost
    simp only [Bool.not_false, if_pos]
    exact List.mem_filter.mpr ⟨ha, by simp [alertOld, hr]⟩
  · intro ha hr ht
    unfold cleanupPost
    simp only [Bool.not_false, if_pos]
    intro hmem
    have := (List.mem_filter.mp hmem).2
    simp [alertOld, hr, ht] at this

/-- C6 witness: at cutoff 10, the unresolved old alert survives the real
sweep, the resolved old alert is deleted, and the dry run leaves the
store unchanged. -/
theorem C6_retention_witness :
    alertU ∈ (cleanupPost 10 false dbC6).1.alerts ∧
    alertR ∉ (cleanupPost 10 false dbC6).1.alerts ∧
    (cleanupPost 10 true dbC6).1 = dbC6 := by
  refine ⟨(C6_retention 10 dbC6 alertU).1 (by decide) (by decide),
    (C6_retention 10 dbC6 alertR).2.1 (by decide) (by decide) (by decide),
    (C6_retention 10 dbC6 alertU).2.2.1⟩

/-! ### Claim C1 -/

theorem exists_id_delete (keep : List String) (db : Database) (x : ℕ)
    (h : ∃ r ∈ db.containers, r.id = x) (hx : x ∉ removedIds keep db) :
    ∃ r ∈ (deleteContainersNotIn keep db).containers, r.id = x := by
  obtain ⟨r, hr, rfl⟩ := h
  by_cases hk : r.containerId ∈ keep
  · exact ⟨r, List.mem_filter.mpr ⟨hr, by simpa using hk⟩, rfl⟩
  · refine absurd ?_ hx
    exact List.mem_map.mpr ⟨r, List.mem_filter.mpr ⟨hr, by simpa using hk⟩, rfl⟩

theorem refIntegrity_delete (keep : List String) (db : Database)
    (h : refIntegrity db) : refIntegrity (deleteContainersNotIn keep db) := by
  obtain ⟨hm, hs, hl, ha⟩ := h
  refine ⟨?_, ?_, ?_, ?_⟩
  · intro m hmem
    have h2 := List.mem_filter.mp hmem
    exact exists_id_delete keep db _ (hm m h2.1) (by simpa using h2.2)
  · intro sc hmem
    have h2 := List.mem_filter.mp hmem
    exact exists_id_delete keep db _ (hs sc h2.1) (by simpa using h2.2)
  · intro lg hmem
    have h2 := List.mem_filter.mp hmem
    exact exists_id_delete keep db _ (hl lg h2.1) (by simpa using h2.2)
  · intro a hmem
    obtain ⟨a0, ha0, rfl⟩ := List.mem_map.mp hmem
    rcases h3 : a0.containerId with _ | cid
    · left
      simp [h3]
    · by_cases hrem : cid ∈ removedIds keep db
      · left
        simp [h3, hrem]
      · right
        have hex : ∃ r ∈ db.containers, some r.id = a0.containerId :=
          ((ha a0 ha0).resolve_left (by simp [h3]))
        obtain ⟨r, hr, hsome⟩ := hex
        rw [h3] at hsome
        obtain ⟨r2, hr2, hid⟩ :=
          exists_id_delete keep db cid ⟨r, hr, Option.some.inj hsome⟩ hrem
        exact ⟨r2, hr2, by simp [h3, hrem, hid]⟩

theorem refIntegrity_fold (now : ℤ) (obs : List ObservedContainer)
    (db : Database) (h : refIntegrity db) :
    refIntegrity (obs.foldl (upsertContainer now) db) := by
  obtain ⟨hm, hs, hl, ha⟩ := h
  refine ⟨?_, ?_, ?_, ?_⟩
  · intro m hmem
    rw [fold_upsert_metrics_eq] at hmem
    exact exists_id_fold now obs db _ (hm m hmem)
  · intro sc hmem
    rw [fold_upsert_scans_eq] at hmem
    exact exists_id_fold now obs db _ (hs sc hmem)
  · intro lg hmem
    rw [fold_upsert_logs_eq] at hmem
    exact exists_id_fold now obs db _ (hl lg hmem)
  · intro a hmem
    rw [fold_upsert_alerts_eq] at hmem
    rcases ha a hmem with h0 | ⟨r, hr, hrid⟩
    · exact Or.inl h0
    · right
      obtain ⟨r2, hr2, hid⟩ := exists_id_fold now obs db r.id ⟨r, hr, rfl⟩
      exact ⟨r2, hr2, by rw [hid, hrid]⟩

theorem refIntegrity_sync (now : ℤ) (obs : List ObservedContainer)
    (db : Database) (h : refIntegrity db) :
    refIntegrity (syncContainersToDatabase now obs db) := by
  show refIntegrity
    (if (obs.map (·.id)).length > 0 then
      deleteContainersNotIn (obs.map (·.id)) (obs.foldl (upsertContainer now) db)
    else obs.foldl (upsertContainer now) db)
  by_cases hlen : (obs.map (·.id)).length > 0
  · rw [if_pos hlen]
    exact refIntegrity_delete _ _ (refIntegrity_fold now obs db h)
  · rw [if_neg hlen]
    exact refIntegrity_fold now obs db h

theorem sync_alerts_length (now : ℤ) (obs : List ObservedContainer)
    (db : Database) :
    (syncContainersToDatabase now obs db).alerts.length = db.alerts.length := by
  show (if (obs.map (·.id)).length > 0 then
      deleteContainersNotIn (obs.map (·.id)) (obs.foldl (upsertContainer now) db)
    else obs.foldl (upsertContainer now) db).alerts.length = _
  by_cases hlen : (obs.map (·.id)).length > 0
  · rw [if_pos hlen]
    show ((obs.foldl (upsertContainer now) db).alerts.map _).length = _
    rw [List.length_map, fold_upsert_alerts_eq]
  · rw [if_neg hlen, fold_upsert_alerts_eq]

/-- C1 counterexample: deleting container `"a"` (runtime list `[b]`)
cascade-deletes its metric and scan rows, but its alert row — a
dependent row that had a non-null reference to the deleted container —
is *not* deleted: it survives with its reference set to null. -/
theorem C1_counterexample :
    (syncContainersToDatabase 0 [obsB] dbC1).containers.map
      (fun r => r.containerId) = ["b"] ∧
    (syncContainersToDatabase 0 [obsB] dbC1).metrics = [] ∧
    (syncContainersToDatabase 0 [obsB] dbC1).scans = [] ∧
    (syncContainersToDatabase 0 [obsB] dbC1).alerts =
      [⟨"CRITICAL", "m", "scanner", none, 0, false⟩] := by decide

/-- C1 (amended): when the reconciler deletes a `ContainerRecord`, its
metric, scan and log rows are deleted in the same operation, while alert
rows are never deleted — their container reference is set to null — and
referential integrity is preserved: no surviving row references a
nonexistent container. -/
theorem C1_cascade_and_alert_retention (now : ℤ)
    (obs : List ObservedContainer) (db : Database) :
    (syncContainersToDatabase now obs db).alerts.length = db.alerts.length ∧
    (refIntegrity db → refIntegrity (syncContainersToDatabase now obs db)) :=
  ⟨sync_alerts_length now obs db, fun h => refIntegrity_sync now obs db h⟩

/-- C1 witness: the amended theorem applied to the concrete store
`dbC1` and observed list `[b]`. -/
theorem C1_witness :
    (syncContainersToDatabase 0 [obsB] dbC1).alerts.length =
      dbC1.alerts.length ∧
    refIntegrity (syncContainersToDatabase 0 [obsB] dbC1) :=
  ⟨(C1_cascade_and_alert_retention 0 [obsB] dbC1).1,
   (C1_cascade_and_alert_retention 0 [obsB] dbC1).2
     (by unfold refIntegrity dbC1; decide)⟩

/-! ### Claim C8 -/

/-- C8 counterexample: on a snapshot pair where the idle bucket
decreases, the code returns 200 while the claimed clamped formula gives
100 — `getCPUUsage` does not clamp. -/
theorem C8_counterexample :
    getCPUUsage cpuFirstCx cpuSecondCx = 200 ∧
    specCpuUsage cpuFirstCx cpuSecondCx = 100 := by
  constructor
  · simp [getCPUUsage, cpuTotal, cpuIdleTime, cpuFirstCx, cpuSecondCx] <;>
      norm_num
  · simp [specCpuUsage, cpuTotal, cpuIdleTime, cpuFirstCx, cpuSecondCx] <;>
      norm_num

/-- C8 (amended): the computed CPU usage equals the *unclamped*
`(1 − (Δidle + Δiowait)/Δtotal) × 100` whenever `Δtotal > 0`, is `0`
whenever `Δtotal ≤ 0` (in particular at `Δtotal = 0`, with no division
by zero), and lies in `[0, 100]` whenever the counters are monotone —
so explicit clamping is absent but vacuous for real counter
snapshots. -/
theorem C8_cpu_usage (first second : CpuTimes) :
    (cpuTotal second - cpuTotal first ≤ 0 → getCPUUsage first second = 0) ∧
    (cpuTotal second - cpuTotal first > 0 →
      getCPUUsage first second =
        (1 - (((second.idle + second.iowait) -
            (first.idle + first.iowait) : ℤ) : ℚ) /
          ((cpuTotal second - cpuTotal first : ℤ) : ℚ)) * 100) ∧
    (first.user ≤ second.user → first.nice ≤ second.nice →
      first.system ≤ second.system → first.idle ≤ second.idle →
      first.iowait ≤ second.iowait → first.irq ≤ second.irq →
      first.softirq ≤ second.softirq →
      0 ≤ getCPUUsage first second ∧ getCPUUsage first second ≤ 100) := by
  refine ⟨?_, ?_, ?_⟩
  · intro h
    unfold getCPUUsage
    rw [if_neg (by omega)]
  · intro h
    have hT : ((cpuTotal second : ℚ)) - ((cpuTotal first : ℚ)) ≠ 0 := by
      exact_mod_cast (by omega : cpuTotal second - cpuTotal first ≠ 0)
    unfold getCPUUsage
    rw [if_pos h]
    unfold cpuIdleTime
    push_cast
    field_simp
  · intro h1 h2 h3 h4 h5 h6 h7
    unfold getCPUUsage
    by_cases hT : cpuTotal second - cpuTotal first > 0
    · rw [if_pos hT]
      have hI0 : (0 : ℤ) ≤ cpuIdleTime second - cpuIdleTime first := by
        unfold cpuIdleTime
        omega
      have hIT : cpuIdleTime second - cpuIdleTime first ≤
          cpuTotal second - cpuTotal first := by
        unfold cpuTotal cpuIdleTime
        omega
      have hTpos : (0 : ℚ) < ((cpuTotal second - cpuTotal first : ℤ) : ℚ) := by
        exact_mod_cast hT
      have hnum0 : (0 : ℚ) ≤
          (((cpuTotal second - cpuTotal first) -
            (cpuIdleTime second - cpuIdleTime first) : ℤ) : ℚ) := by
        exact_mod_cast (by omega :
          (0 : ℤ) ≤ (cpuTotal second - cpuTotal first) -
            (cpuIdleTime second - cpuIdleTime first))
      have hnum1 : (((cpuTotal second - cpuTotal first) -
            (cpuIdleTime second - cpuIdleTime first) : ℤ) : ℚ) ≤
          ((cpuTotal second - cpuTotal first : ℤ) : ℚ) := by
        exact_mod_cast (by omega :
          (cpuTotal second - cpuTotal first) -
            (cpuIdleTime second - cpuIdleTime first) ≤
          cpuTotal second - cpuTotal first)
      constructor
      · exact mul_nonneg (div_nonneg hnum0 (le_of_lt hTpos)) (by norm_num)
      · have hdiv : (((cpuTotal second - cpuTotal first) -
            (cpuIdleTime second - cpuIdleTime first) : ℤ) : ℚ) /
            ((cpuTotal second - cpuTotal first : ℤ) : ℚ) ≤ 1 :=
          (div_le_one hTpos).mpr hnum1
        calc (((cpuTotal second - cpuTotal first) -
              (cpuIdleTime second - cpuIdleTime first) : ℤ) : ℚ) /
              ((cpuTotal second - cpuTotal first : ℤ) : ℚ) * 100
            ≤ 1 * 100 := by
              exact mul_le_mul_of_nonneg_right hdiv (by norm_num)
          _ = 100 := by norm_num
    · rw [if_neg hT]
      norm_num

/-- C8 witness: the theorem applied to the all-zero pair (`Δtotal = 0`)
and to a monotone pair. -/
theorem C8_witness :
    getCPUUsage cpuZero cpuZero = 0 ∧
    (0 ≤ getCPUUsage cpuZero cpuOnes ∧ getCPUUsage cpuZero cpuOnes ≤ 100) :=
  ⟨(C8_cpu_usage cpuZero cpuZero).1 (by decide),
   (C8_cpu_usage cpuZero cpuOnes).2.2 (by decide) (by decide) (by decide)
     (by decide) (by decide) (by decide) (by decide)⟩

/-! ### Claim C4 -/

/-- C4 counterexample: on the spec's example line the persisted memory
limit is `512` — the limit converted to *mebibytes* — not a byte count
`≈ 512×1024×1024`. -/
theorem C4_counterexample :
    (collectSingleContainerMetricsStr statsLineC4).map (fun m => m.memLimit) =
      some (some (.num 512)) ∧
    ¬ approxEq 512 (512 * 1024 * 1024) := by
  constructor
  · simp [collectSingleContainerMetricsStr, collectSingleContainerMetrics,
      jsTrim, splitOnCh, jsSplitWs, jsSplitWsAux, isJsWs, jsIndex,
      replaceFirstCh, jsParseFloat, natOfDigits, digitVal, regexNumUnit,
      regexIoPair, ioPairAt, takeOptCh, isDigitDot, isUnitCh, parseBytes,
      applyMemLimitUnit, jsMul, jsDiv, nanToZero, undefinedChars,
      List.isPrefixOf, statsLineC4] <;> norm_num
  · intro hcl
    simp only [approxEq] at hcl
    rw [abs_of_nonpos (by norm_num)] at hcl
    norm_num at hcl

/-- C4 (amended): the spec's example line produces
`cpuUsage = 0.50`, `memUsage = 0.41`, `memLimit = 512` (mebibytes, not
bytes), `netInBytes = 1228.8 ≈ 1200` and `netOutBytes = 800` (and block
I/O `3·1024²` / `1·1024²`). -/
theorem C4_stats_line :
    collectSingleContainerMetricsStr statsLineC4 =
      some { cpuUsage := .num (1/2), memUsage := .num (41/100),
             memLimit := some (.num 512), netIn := .num (6144/5),
             netOut := .num 800, diskRead := some (.num 3145728),
             diskWrite := some (.num 1048576) } ∧
    approxEq (6144/5) 1200 := by
  constructor
  · simp [collectSingleContainerMetricsStr, collectSingleContainerMetrics,
      jsTrim, splitOnCh, jsSplitWs, jsSplitWsAux, isJsWs, jsIndex,
      replaceFirstCh, jsParseFloat, natOfDigits, digitVal, regexNumUnit,
      regexIoPair, ioPairAt, takeOptCh, isDigitDot, isUnitCh, parseBytes,
      applyMemLimitUnit, jsMul, jsDiv, nanToZero, undefinedChars,
      List.isPrefixOf, statsLineC4] <;> norm_num
  · simp only [approxEq, abs_le]
    norm_num

/-! ### Claim C7 -/

/-- C7: the Unit Parser multiplies by 1024 per suffix step for every
recognized suffix (none, K, M, G, T), in either case, with or without an
`i` marker and with or without a trailing `B`; the spec's concrete
examples hold; empty and unrecognized input give 0 (and the parser is a
total function — it never raises). -/
theorem C7_parseBytes_binary_units :
    (∀ (u : SuffixKind) (lower iMark bMark : Bool),
      parseBytes (renderSeven u lower iMark bMark) =
        .num (7 * 1024 ^ suffixStep u)) ∧
    parseBytesStr "2.098MiB" = .num (2.098 * 1024 * 1024) ∧
    parseBytesStr "14.3MB" = .num (14.3 * 1024 * 1024) ∧
    parseBytesStr "" = .num 0 ∧
    parseBytesStr "garbage" = .num 0 := by
  refine ⟨?_, ?_, ?_, by decide, by decide⟩
  · intro u lower iMark bMark
    cases u <;> cases lower <;> cases iMark <;> cases bMark <;>
      simp [renderSeven, suffixChars, suffixStep, parseBytes, regexNumUnit,
        jsParseFloat, isUnitCh, isJsWs, natOfDigits, digitVal, jsMul,
        List.isPrefixOf] <;> norm_num
  · simp [parseBytesStr, parseBytes, regexNumUnit, jsParseFloat, isUnitCh,
      isJsWs, List.isPrefixOf, natOfDigits, digitVal, jsMul] <;> norm_num
  · simp [parseBytesStr, parseBytes, regexNumUnit, jsParseFloat, isUnitCh,
      isJsWs, List.isPrefixOf, natOfDigits, digitVal, jsMul] <;> norm_num

/-! ### Claim C9 -/

/-- C9: a stats line with fewer than 9 whitespace-separated tokens is
rejected whole — no sample (not a zeroed one) — and empty stats stdout
likewise yields no sample (the parser is total, so no error is
raised). -/
theorem C9_short_line_rejected (stdout : List Char) :
    ((jsSplitWs ((splitOnCh '\n' (jsTrim stdout)).headD [])).length < 9 →
      collectSingleContainerMetrics stdout = none) ∧
    (jsTrim stdout = [] → collectSingleContainerMetrics stdout = none) := by
  constructor
  · intro h
    unfold collectSingleContainerMetrics
    dsimp only
    split_ifs <;> first | rfl | exact absurd h (by assumption)
  · intro h
    unfold collectSingleContainerMetrics
    dsimp only
    rw [if_pos h]

/-- C9 witness: a concrete 5-token line and empty stdout both produce no
sample. -/
theorem C9_witness :
    collectSingleContainerMetrics shortLine.data = none ∧
    collectSingleContainerMetrics "".data = none :=
  ⟨(C9_short_line_rejected shortLine.data).1 (by decide),
   (C9_short_line_rejected "".data).2 (by decide)⟩

/-! ### Claim C10 -/

/-- C10: every persisted usage value is non-NaN: for every stats stdout
that produces a container sample, its `cpuUsage` and `memUsage` are not
NaN, and for every combination of OS inputs (including arbitrary, even
NaN, intermediate values) the host sample's `cpuUsage`,
`ramUsagePercent` and `diskUsagePercent` are not NaN — the `isNaN ? 0`
guards run before every write. -/
theorem C10_persisted_usage_not_nan :
    (∀ (stdout : List Char) (m : MetricData),
      collectSingleContainerMetrics stdout = some m →
        m.cpuUsage ≠ JSVal.nan ∧ m.memUsage ≠ JSVal.nan) ∧
    (∀ (cpu l1 l5 l15 tm fm : JSVal) (df : List Char) (netI netO : JSVal),
      (collectSystemMetrics cpu l1 l5 l15 tm fm df netI netO).cpuUsage ≠
        JSVal.nan ∧
      (collectSystemMetrics cpu l1 l5 l15 tm fm df netI netO).ramUsagePercent ≠
        JSVal.nan ∧
      (collectSystemMetrics cpu l1 l5 l15 tm fm df netI netO).diskUsagePercent ≠
        JSVal.nan) := by
  constructor
  · intro stdout m hm
    unfold collectSingleContainerMetrics at hm
    dsimp only at hm
    split_ifs at hm <;>
      first
        | exact Option.noConfusion hm
        | (rw [Option.some.injEq] at hm
           subst hm
           exact ⟨nanToZero_ne_nan _, nanToZero_ne_nan _⟩)
  · intro cpu l1 l5 l15 tm fm df netI netO
    exact ⟨nanToZero_ne_nan _, nanToZero_ne_nan _, nanToZero_ne_nan _⟩

/-- C10 witness: a 9-token line with non-numeric percentage tokens — the
NaN parse results are replaced by 0 in the persisted sample. -/
theorem C10_witness :
    collectSingleContainerMetrics statsLineC10.data = some metricC10 ∧
    metricC10.cpuUsage ≠ JSVal.nan ∧ metricC10.memUsage ≠ JSVal.nan := by
  have h : collectSingleContainerMetrics statsLineC10.data = some metricC10 := by
    decide
  exact ⟨h, (C10_persisted_usage_not_nan.1 statsLineC10.data metricC10 h).1,
    (C10_persisted_usage_not_nan.1 statsLineC10.data metricC10 h).2⟩

end EclipGuardX
